import Mathlib

/-!
Verification of the daily vocal-coaching report engine in
`src/backend/fetch_ai_service.py` (class `FetchAiVocalCoach`).

Shallow embedding conventions:
* Python floats are modelled as real numbers (`ℝ`); exact arithmetic.
* A Python exception (`raise` escaping a function) is modelled with
  `Except Unit`: `Except.error ()` is a raised exception, `Except.ok v`
  a normal return of `v`.
* `datetime` timestamps are modelled by `Timestamp`: `seconds` is the
  absolute time in seconds (used for comparison and for
  `total_seconds()` differences), `day` is the `strftime("%Y-%m-%d")`
  rendering of the calendar day.
* Python's `set(...)` has an iteration order that the language does not
  specify (it depends on hashing).  Everywhere the source iterates over
  a set, the embedding takes the iteration order as an explicit
  parameter (`setOrder`); an order is admissible when `IsSetOrder`
  holds (no duplicates, same members as the underlying collection).
* External collaborators (the Supabase session store, the ASI-1 text
  generator, stdlib date arithmetic and float formatting) are modelled
  as function-valued fields of a `Collaborators` structure; their
  fallible calls return `Except Unit`.
-/


/-- The `TrendDirection` enum: UP = "up", DOWN = "down", STABLE = "baseline". -/
inductive TrendDirection where
  | UP : TrendDirection
  | DOWN : TrendDirection
  | STABLE : TrendDirection
deriving DecidableEq

/-- The string payload of each `TrendDirection` member (its `.value`). -/
def TrendDirection.value : TrendDirection → String
  | .UP => "up"
  | .DOWN => "down"
  | .STABLE => "baseline"

/-- Model of a `datetime` instant: absolute seconds plus its
`strftime("%Y-%m-%d")` calendar-day rendering. -/
structure Timestamp where
  day : String
  seconds : ℚ
deriving DecidableEq

/-- `SessionMetrics` dataclass: one practice session's measurements. -/
structure SessionMetrics where
  timestamp : Timestamp
  mean_pitch : ℝ
  vibrato_rate : ℝ
  jitter : ℝ
  shimmer : ℝ
  dynamics : String
  voice_type : String
  lowest_note : String
  highest_note : String

/-- `DailyMetrics` dataclass: aggregated metrics of one calendar day. -/
structure DailyMetrics where
  date : String
  session_count : ℕ
  mean_pitch_avg : ℝ
  vibrato_rate_avg : ℝ
  jitter_avg : ℝ
  shimmer_avg : ℝ
  dynamics_mode : String
  voice_type_mode : String
  lowest_note : String
  highest_note : String
  pitch_stability : ℝ
  practice_consistency : ℝ

/-- `MetricComparison` dataclass: current vs previous value of a metric. -/
structure MetricComparison where
  current : ℝ
  previous : Option ℝ
  change : Option ℝ
  trend : String
  improvement_percentage : Option ℝ

/-- `FetchAiReport` dataclass: the final report artifact. -/
structure FetchAiReport where
  date : String
  id : String
  summary : String
  metrics : List (String × MetricComparison)
  insights : List String
  recommendations : List String
  practice_sessions : ℕ
  total_practice_time : ℝ
  best_time_of_day : String

/-- The twelve-tone pitch-class table of `_note_to_frequency`. -/
def note_names : List String :=
  ["C", "C#", "D", "D#", "E", "F"] ++ ["F#", "G", "G#", "A", "A#", "B"]

/-- Model of Python `int(c)` on a single character: succeeds exactly on a
decimal digit (returning its value), raises `ValueError` otherwise. -/
def charToDigit (c : Char) : Option ℕ :=
  if '0' ≤ c ∧ c ≤ '9' then some (c.toNat - '0'.toNat) else none

/-- Model of Python `list.index` restricted to first match (`.index` of the
value in the list), as used via `note_names.index(note_name)`. -/
def listIndexOf (l : List String) (x : String) : Option ℕ :=
  match l with
  | [] => none
  | a :: rest => if a == x then some 0 else (listIndexOf rest x).map (· + 1)

/-- Control-flow skeleton of `_note_to_frequency` (lines 417-431):
`ok none` models `return 0` (input too short, or pitch-class prefix not in
`note_names`); `error ()` models the `ValueError` raised by
`int(note[-1])` when the last character is not a digit — note that in the
source this conversion happens before the pitch-class membership test;
`ok (some (idx, oct))` reaches the frequency formula with
`note_index = idx` and `octave = oct`. -/
def _note_to_frequency_parse (note : String) : Except Unit (Option (ℕ × ℕ)) :=
  if note.length < 2 then Except.ok none
  else
    let note_name : String := ⟨note.data.dropLast⟩
    match charToDigit (note.data.getLastD ' ') with
    | none => Except.error ()
    | some octave =>
      match listIndexOf note_names note_name with
      | none => Except.ok none
      | some note_index => Except.ok (some (note_index, octave))

/-- `_note_to_frequency` (lines 417-431): equal-temperament frequency
`440 * 2 ** ((note_index - 9) / 12 + (octave - 4))`, `0` for malformed
input, `ValueError` when the final character is not a digit. -/
noncomputable def _note_to_frequency (note : String) : Except Unit ℝ :=
  match _note_to_frequency_parse note with
  | Except.error e => Except.error e
  | Except.ok none => Except.ok 0
  | Except.ok (some (note_index, octave)) =>
      Except.ok (440 * (2 : ℝ) ^ (((note_index : ℝ) - 9) / 12 + ((octave : ℝ) - 4)))

/-- `statistics.mean` on a list of floats (arithmetic mean). -/
noncomputable def statistics_mean (l : List ℝ) : ℝ :=
  l.sum / (l.length : ℝ)

/-- `statistics.stdev` on a list of floats: sample standard deviation with
`N - 1` denominator. -/
noncomputable def statistics_stdev (l : List ℝ) : ℝ :=
  Real.sqrt ((l.map (fun x => (x - statistics_mean l) ^ 2)).sum / ((l.length : ℝ) - 1))

/-- Occurrence count of `x` in `l`, modelling
`sum(1 for s in sessions if s.field == x)`. -/
def countMatches (l : List String) (x : String) : ℕ :=
  (l.filter (fun y => y == x)).length

/-- Fold of Python `max(iterable, key=...)` over the tail: the current
best is replaced exactly when the new element's key is strictly greater,
so the first element attaining the maximal key wins. -/
def pyMaxByNatGo (key : String → ℕ) (best : String) : List String → String
  | [] => best
  | a :: rest =>
      if key best < key a then pyMaxByNatGo key a rest else pyMaxByNatGo key best rest

/-- Python `max(iterable, key=...)` over strings with a total key;
`max` of an empty iterable raises `ValueError`. -/
def pyMaxByNat (key : String → ℕ) : List String → Except Unit String
  | [] => Except.error ()
  | a :: rest => Except.ok (pyMaxByNatGo key a rest)

/-- Fold of Python `min(sessions, key=...)` over the tail with a fallible
key (the key calls `_note_to_frequency`, which can raise): the current
minimum is replaced exactly when the new key is strictly smaller, so the
first element attaining the minimal key wins; a raised key aborts. -/
noncomputable def pyMinBySessionGo (key : SessionMetrics → Except Unit ℝ)
    (best : SessionMetrics) (bk : ℝ) : List SessionMetrics → Except Unit SessionMetrics
  | [] => Except.ok best
  | s :: rest =>
      match key s with
      | Except.error e => Except.error e
      | Except.ok k =>
          if k < bk then pyMinBySessionGo key s k rest else pyMinBySessionGo key best bk rest

/-- Python `min(sessions, key=...)` with a fallible key. -/
noncomputable def pyMinBySession (key : SessionMetrics → Except Unit ℝ) :
    List SessionMetrics → Except Unit SessionMetrics
  | [] => Except.error ()
  | s :: rest =>
      match key s with
      | Except.error e => Except.error e
      | Except.ok k => pyMinBySessionGo key s k rest

/-- Fold of Python `max(sessions, key=...)` over the tail with a fallible
key: the current maximum is replaced exactly when the new key is strictly
greater. -/
noncomputable def pyMaxBySessionGo (key : SessionMetrics → Except Unit ℝ)
    (best : SessionMetrics) (bk : ℝ) : List SessionMetrics → Except Unit SessionMetrics
  | [] => Except.ok best
  | s :: rest =>
      match key s with
      | Except.error e => Except.error e
      | Except.ok k =>
          if bk < k then pyMaxBySessionGo key s k rest else pyMaxBySessionGo key best bk rest

/-- Python `max(sessions, key=...)` with a fallible key. -/
noncomputable def pyMaxBySession (key : SessionMetrics → Except Unit ℝ) :
    List SessionMetrics → Except Unit SessionMetrics
  | [] => Except.error ()
  | s :: rest =>
      match key s with
      | Except.error e => Except.error e
      | Except.ok k => pyMaxBySessionGo key s k rest

/-- `max(timestamps)` in seconds. -/
def tsMaxSec (t : Timestamp) (rest : List Timestamp) : ℚ :=
  rest.foldl (fun a u => max a u.seconds) t.seconds

/-- `min(timestamps)` in seconds. -/
def tsMinSec (t : Timestamp) (rest : List Timestamp) : ℚ :=
  rest.foldl (fun a u => min a u.seconds) t.seconds

/-- `(max(timestamps) - min(timestamps)).total_seconds() / 3600`. -/
def timeSpreadHours (t : Timestamp) (rest : List Timestamp) : ℚ :=
  (tsMaxSec t rest - tsMinSec t rest) / 3600

/-- `_aggregate_daily_metrics` (lines 253-291).  `setOrder` supplies the
iteration order of each Python `set(...)` built from the given value
list; Python guarantees only that this order enumerates the distinct
values once (`IsSetOrder`), not any particular order.  `Except.error ()`
models an exception escaping the method (a `ValueError` from
`_note_to_frequency` in the vocal-range `min`/`max`, or `max(set(...))`
on an inadmissible empty order); `ok none` models `return None` for an
empty session list. -/
noncomputable def _aggregate_daily_metrics (setOrder : List String → List String)
    (sessions : List SessionMetrics) : Except Unit (Option DailyMetrics) :=
  match sessions with
  | [] => Except.ok none
  | s0 :: rest =>
    let ss := s0 :: rest
    let mean_pitches := ss.map (fun s => s.mean_pitch)
    let vibrato_rates := ss.map (fun s => s.vibrato_rate)
    let jitters := ss.map (fun s => s.jitter)
    let shimmers := ss.map (fun s => s.shimmer)
    match pyMaxByNat (countMatches (ss.map (fun s => s.dynamics)))
        (setOrder (ss.map (fun s => s.dynamics))) with
    | Except.error e => Except.error e
    | Except.ok dynamics =>
    match pyMaxByNat (countMatches (ss.map (fun s => s.voice_type)))
        (setOrder (ss.map (fun s => s.voice_type))) with
    | Except.error e => Except.error e
    | Except.ok voice_type =>
    match pyMinBySession (fun x => _note_to_frequency x.lowest_note) ss with
    | Except.error e => Except.error e
    | Except.ok lowSession =>
    match pyMaxBySession (fun x => _note_to_frequency x.highest_note) ss with
    | Except.error e => Except.error e
    | Except.ok highSession =>
      Except.ok (some
        { date := s0.timestamp.day
          session_count := ss.length
          mean_pitch_avg := statistics_mean mean_pitches
          vibrato_rate_avg := statistics_mean vibrato_rates
          jitter_avg := statistics_mean jitters
          shimmer_avg := statistics_mean shimmers
          dynamics_mode := dynamics
          voice_type_mode := voice_type
          lowest_note := lowSession.lowest_note
          highest_note := highSession.highest_note
          pitch_stability := if 1 < mean_pitches.length then statistics_stdev mean_pitches else 0
          practice_consistency := (timeSpreadHours s0.timestamp (rest.map (fun s => s.timestamp)) : ℝ) })

/-- `_calculate_improvement` (lines 293-301): percent change and trend
classification with the 1% stability band; `(0, "baseline")` when
`previous == 0`. -/
noncomputable def _calculate_improvement (current previous : ℝ) : ℝ × String :=
  if previous = 0 then (0, TrendDirection.STABLE.value)
  else
    let change_pct := (current - previous) / previous * 100
    if |change_pct| < 1 then (change_pct, TrendDirection.STABLE.value)
    else if 0 < change_pct then (change_pct, TrendDirection.UP.value)
    else (change_pct, TrendDirection.DOWN.value)

/-- External collaborators and stdlib effects of the report assembler.
`storeFetch` is the raw session-store query underlying
`_get_daily_sessions` (mock data, or the Supabase query with row
parsing); an `error` is any exception inside that fetch, which the
method itself catches.  `aiResult` summarizes every value-producing path
of `_get_ai_insights` (mock insights, parsed 200-response, or the
line-filtering fallback); an `error` is a non-success status or raised
exception, which the method converts to `_get_fallback_insights`.
`strptimePrev` models
`(datetime.strptime(date, "%Y-%m-%d") - timedelta(days=1)).strftime("%Y-%m-%d")`,
which raises on a malformed date string.  `formatMetricsData` models the
f-string float formatting of the metrics summary (lines 368-379).
`setOrder` is the `set(...)` iteration order used by the aggregator. -/
structure Collaborators where
  storeFetch : String → String → Except Unit (List SessionMetrics)
  aiResult : String → String → Except Unit (List String × List String)
  strptimePrev : String → Except Unit String
  formatMetricsData : String → DailyMetrics → String
  setOrder : List String → List String

/-- `_get_daily_sessions` (lines 194-251): returns the store's sessions,
and `[]` when the underlying fetch raises (the `except` at lines
249-251); it never raises itself. -/
def _get_daily_sessions (c : Collaborators) (user_id date : String) : List SessionMetrics :=
  match c.storeFetch user_id date with
  | Except.error _ => []
  | Except.ok sessions => sessions

/-- `_get_fallback_insights` (lines 182-192): the fixed three-item
insight and recommendation lists. -/
def _get_fallback_insights : List String × List String :=
  (["Your vocal practice shows consistent improvement patterns.",
    "Maintaining regular practice sessions will enhance your progress.",
    "Your pitch accuracy is developing well with continued practice."],
   ["Continue with daily vocal warm-ups for 10-15 minutes.",
    "Practice breathing exercises to improve vocal control.",
    "Record yourself regularly to track your progress."])

/-- `_get_ai_insights` (lines 102-180): every failure path (non-success
status, raised exception) degrades to `_get_fallback_insights`; the
method never raises. -/
def _get_ai_insights (c : Collaborators) (metrics_data user_context : String) :
    List String × List String :=
  match c.aiResult metrics_data user_context with
  | Except.error _ => _get_fallback_insights
  | Except.ok p => p

/-- The five `MetricComparison` entries of `generate_daily_report`
(lines 323-365), in insertion order.  For the four vocal metrics the
missing-previous fallback inside `change`/`trend`/`improvement` is the
current value itself; for `total_sessions` it is `0`. -/
noncomputable def buildMetrics (dm : DailyMetrics) (pm : Option DailyMetrics) :
    List (String × MetricComparison) :=
  [("mean_pitch",
    { current := dm.mean_pitch_avg
      previous := pm.map (fun p => p.mean_pitch_avg)
      change := some (dm.mean_pitch_avg -
        (match pm with | some p => p.mean_pitch_avg | none => dm.mean_pitch_avg))
      trend := (_calculate_improvement dm.mean_pitch_avg
        (match pm with | some p => p.mean_pitch_avg | none => dm.mean_pitch_avg)).2
      improvement_percentage := some (_calculate_improvement dm.mean_pitch_avg
        (match pm with | some p => p.mean_pitch_avg | none => dm.mean_pitch_avg)).1 }),
   ("vibrato_rate",
    { current := dm.vibrato_rate_avg
      previous := pm.map (fun p => p.vibrato_rate_avg)
      change := some (dm.vibrato_rate_avg -
        (match pm with | some p => p.vibrato_rate_avg | none => dm.vibrato_rate_avg))
      trend := (_calculate_improvement dm.vibrato_rate_avg
        (match pm with | some p => p.vibrato_rate_avg | none => dm.vibrato_rate_avg)).2
      improvement_percentage := some (_calculate_improvement dm.vibrato_rate_avg
        (match pm with | some p => p.vibrato_rate_avg | none => dm.vibrato_rate_avg)).1 }),
   ("jitter",
    { current := dm.jitter_avg
      previous := pm.map (fun p => p.jitter_avg)
      change := some (dm.jitter_avg -
        (match pm with | some p => p.jitter_avg | none => dm.jitter_avg))
      trend := (_calculate_improvement dm.jitter_avg
        (match pm with | some p => p.jitter_avg | none => dm.jitter_avg)).2
      improvement_percentage := some (_calculate_improvement dm.jitter_avg
        (match pm with | some p => p.jitter_avg | none => dm.jitter_avg)).1 }),
   ("shimmer",
    { current := dm.shimmer_avg
      previous := pm.map (fun p => p.shimmer_avg)
      change := some (dm.shimmer_avg -
        (match pm with | some p => p.shimmer_avg | none => dm.shimmer_avg))
      trend := (_calculate_improvement dm.shimmer_avg
        (match pm with | some p => p.shimmer_avg | none => dm.shimmer_avg)).2
      improvement_percentage := some (_calculate_improvement dm.shimmer_avg
        (match pm with | some p => p.shimmer_avg | none => dm.shimmer_avg)).1 }),
   ("total_sessions",
    { current := (dm.session_count : ℝ)
      previous := pm.map (fun p => (p.session_count : ℝ))
      change := some ((dm.session_count : ℝ) -
        (match pm with | some p => (p.session_count : ℝ) | none => 0))
      trend := (_calculate_improvement (dm.session_count : ℝ)
        (match pm with | some p => (p.session_count : ℝ) | none => 0)).2
      improvement_percentage := some (_calculate_improvement (dm.session_count : ℝ)
        (match pm with | some p => (p.session_count : ℝ) | none => 0)).1 })]

/-- `_generate_summary` (lines 433-443). -/
def _generate_summary (current : DailyMetrics) (previous : Option DailyMetrics) : String :=
  match previous with
  | some p =>
      if p.session_count < current.session_count then
        "Excellent progress today! You completed " ++ toString current.session_count ++
          " practice sessions, showing increased dedication to your vocal development."
      else if current.session_count = p.session_count then
        "Consistent practice maintained with " ++ toString current.session_count ++
          " sessions today. Your vocal technique continues to develop steadily."
      else
        "Completed " ++ toString current.session_count ++
          " practice sessions today. Consider increasing practice frequency for optimal progress."
  | none =>
      "Great start! You completed " ++ toString current.session_count ++
        " practice sessions today. Keep up the momentum!"

/-- The `user_context` string of line 381. -/
def userContext (user_id date : String) (dm : DailyMetrics) : String :=
  "User " ++ user_id ++ " practicing vocal techniques with " ++
    toString dm.session_count ++ " sessions on " ++ date

/-- `_generate_fallback_report` (lines 445-457). -/
def _generate_fallback_report (user_id date : String) : FetchAiReport :=
  { date := date
    id := "fallback_" ++ user_id ++ "_" ++ date
    summary := "No practice sessions recorded for this date. Start practicing to see your vocal analysis!"
    metrics := []
    insights := ["Begin with daily vocal warm-ups", "Practice breathing exercises",
      "Record your sessions to track progress"]
    recommendations := ["Start with 10-minute daily sessions", "Focus on proper breathing technique",
      "Use the practice feature regularly"]
    practice_sessions := 0
    total_practice_time := 0
    best_time_of_day := "Morning" }

/-- The body of `generate_daily_report`'s `try` block (lines 305-405):
an `Except.error` is any exception reaching the top-level handler. -/
noncomputable def generate_daily_report_body (c : Collaborators) (user_id date : String) :
    Except Unit FetchAiReport :=
  match _get_daily_sessions c user_id date with
  | [] => Except.ok (_generate_fallback_report user_id date)
  | s0 :: rest =>
    match _aggregate_daily_metrics c.setOrder (s0 :: rest) with
    | Except.error e => Except.error e
    | Except.ok none => Except.ok (_generate_fallback_report user_id date)
    | Except.ok (some daily_metrics) =>
      match c.strptimePrev date with
      | Except.error e => Except.error e
      | Except.ok previous_date =>
        match (match _get_daily_sessions c user_id previous_date with
               | [] => Except.ok (none : Option DailyMetrics)
               | p0 :: prest => _aggregate_daily_metrics c.setOrder (p0 :: prest)) with
        | Except.error e => Except.error e
        | Except.ok previous_metrics =>
          let metrics := buildMetrics daily_metrics previous_metrics
          let insights_recs := _get_ai_insights c
            (c.formatMetricsData date daily_metrics) (userContext user_id date daily_metrics)
          Except.ok
            { date := date
              id := "report_" ++ user_id ++ "_" ++ date
              summary := _generate_summary daily_metrics previous_metrics
              metrics := metrics
              insights := insights_recs.1
              recommendations := insights_recs.2
              practice_sessions := daily_metrics.session_count
              total_practice_time := (daily_metrics.session_count : ℝ) * 15
              best_time_of_day := "Morning (9-11 AM)" }

/-- `generate_daily_report` (lines 303-409): the whole body runs inside
`try`; any exception is converted to the fallback report, so the method
is total. -/
noncomputable def generate_daily_report (c : Collaborators) (user_id date : String) :
    FetchAiReport :=
  match generate_daily_report_body c user_id date with
  | Except.error _ => _generate_fallback_report user_id date
  | Except.ok report => report

/-- The note-string format of the `SessionRecord` data model (spec
section 3): a letter, an optional sharp, and an octave digit. -/
def noteWF (s : String) : Bool :=
  match s.data with
  | [c, d] => c.isAlpha && (charToDigit d).isSome
  | [c, sharp, d] => c.isAlpha && (sharp == '#') && (charToDigit d).isSome
  | _ => false

/-- An admissible iteration order of Python `set(l)`: each distinct
member of `l` exactly once, in some order. -/
def IsSetOrder (order l : List String) : Prop :=
  order.Nodup ∧ (∀ x ∈ order, x ∈ l) ∧ (∀ x ∈ l, x ∈ order)

/-- Deduplication keeping first occurrences in encounter order, with an
accumulator of already-seen values. -/
def firstSeenDedupAux (seen : List String) : List String → List String
  | [] => []
  | a :: l =>
      if a ∈ seen then firstSeenDedupAux seen l
      else a :: firstSeenDedupAux (a :: seen) l

/-- Deduplication keeping first occurrences in encounter order. -/
def firstSeenDedup (l : List String) : List String :=
  firstSeenDedupAux [] l

/-- Modelled from the spec: the categorical mode with ties broken by the
first-encountered value (spec sections 3 and 4.2).  A strict-improvement
scan in encounter order returns exactly the first-seen value among the
values of maximal occurrence count. -/
def firstSeenMode (l : List String) : Except Unit String :=
  pyMaxByNat (countMatches l) l

/-- Mutual consistency of the `trend` and `improvement_percentage`
fields of a `MetricComparison` (claim C10's invariant). -/
def TrendConsistent (mc : MetricComparison) : Prop :=
  (mc.trend = "up" → ∃ p, mc.improvement_percentage = some p ∧ 1 ≤ p) ∧
  (mc.trend = "down" → ∃ p, mc.improvement_percentage = some p ∧ p ≤ -1) ∧
  (mc.trend = "baseline" → ∃ p, mc.improvement_percentage = some p ∧ |p| < 1)

/-- A concrete practice session used as a witness input. -/
noncomputable def sessionA : SessionMetrics :=
  { timestamp := { day := "2024-01-02", seconds := 0 }
    mean_pitch := 100
    vibrato_rate := 100
    jitter := 100
    shimmer := 100
    dynamics := "a"
    voice_type := "tenor"
    lowest_note := "A4"
    highest_note := "A4" }

/-- A second concrete practice session (same notes and pitches as
`sessionA`, different dynamics label). -/
noncomputable def sessionB : SessionMetrics :=
  { timestamp := { day := "2024-01-02", seconds := 0 }
    mean_pitch := 100
    vibrato_rate := 100
    jitter := 100
    shimmer := 100
    dynamics := "b"
    voice_type := "tenor"
    lowest_note := "A4"
    highest_note := "A4" }

/-- An admissible set iteration order that reverses first-seen order. -/
def reversedSetOrder (l : List String) : List String :=
  (firstSeenDedup l).reverse

/-- Collaborators whose store returns no sessions, for witnesses. -/
def emptyStoreCollab : Collaborators :=
  { storeFetch := fun _ _ => Except.ok []
    aiResult := fun _ _ => Except.ok ([], [])
    strptimePrev := fun _ => Except.ok ""
    formatMetricsData := fun _ _ => ""
    setOrder := fun l => l }

/-- Collaborators with exactly one session on 2024-01-02 and none on any
other date; the text generator raises. -/
noncomputable def oneSessionCollab : Collaborators :=
  { storeFetch := fun _ dd => if dd = "2024-01-02" then Except.ok [sessionA] else Except.ok []
    aiResult := fun _ _ => Except.error ()
    strptimePrev := fun _ => Except.ok "2024-01-01"
    formatMetricsData := fun _ _ => ""
    setOrder := fun l => l }

/-- The aggregated metrics of the one-session day `[sessionA]`. -/
noncomputable def dmA : DailyMetrics :=
  { date := sessionA.timestamp.day
    session_count := [sessionA].length
    mean_pitch_avg := statistics_mean ([sessionA].map (fun s => s.mean_pitch))
    vibrato_rate_avg := statistics_mean ([sessionA].map (fun s => s.vibrato_rate))
    jitter_avg := statistics_mean ([sessionA].map (fun s => s.jitter))
    shimmer_avg := statistics_mean ([sessionA].map (fun s => s.shimmer))
    dynamics_mode := "a"
    voice_type_mode := "tenor"
    lowest_note := sessionA.lowest_note
    highest_note := sessionA.highest_note
    pitch_stability := if 1 < ([sessionA].map (fun s => s.mean_pitch)).length
      then statistics_stdev ([sessionA].map (fun s => s.mean_pitch)) else 0
    practice_consistency :=
      (timeSpreadHours sessionA.timestamp
        (([] : List SessionMetrics).map (fun s => s.timestamp)) : ℝ) }

/-- The total_sessions comparison of the one-session first day. -/
noncomputable def mcTotalA : MetricComparison :=
  { current := (dmA.session_count : ℝ)
    previous := none
    change := some ((dmA.session_count : ℝ) - 0)
    trend := (_calculate_improvement (dmA.session_count : ℝ) 0).2
    improvement_percentage := some (_calculate_improvement (dmA.session_count : ℝ) 0).1 }

theorem note_parse_A4 : _note_to_frequency_parse "A4" = Except.ok (some (9, 4)) := rfl

theorem note_parse_A5 : _note_to_frequency_parse "A5" = Except.ok (some (9, 5)) := rfl

theorem note_parse_C4 : _note_to_frequency_parse "C4" = Except.ok (some (0, 4)) := rfl

theorem note_parse_empty : _note_to_frequency_parse "" = Except.ok none := rfl

theorem note_parse_Z4 : _note_to_frequency_parse "Z4" = Except.ok none := rfl

theorem note_parse_A : _note_to_frequency_parse "A" = Except.ok none := rfl

theorem note_parse_Ab : _note_to_frequency_parse "Ab" = Except.error () := rfl

theorem note_parse_Csx : _note_to_frequency_parse "C#x" = Except.error () := rfl

/-- C1: the spec claims `_note_to_frequency` is pure and total over all
strings and returns 0 on malformed input such as "Ab" or "C#x".  The code
instead raises `ValueError` from `int(note[-1])` on any input of length
at least 2 whose final character is not a digit, because the conversion
happens before the pitch-class membership check; the short-input clause
does hold.  This theorem evaluates the code at the failing inputs. -/
theorem note_to_frequency_raises_on_nondigit_octave :
    _note_to_frequency "Ab" = Except.error () ∧
    _note_to_frequency "C#x" = Except.error () ∧
    _note_to_frequency "" = Except.ok 0 ∧
    _note_to_frequency "A" = Except.ok 0 :=
  ⟨rfl, rfl, rfl, rfl⟩

/-- C7: equal-temperament anchor values of `_note_to_frequency`:
A4 = 440, A5 = 880, C4 within 0.01 of 261.63, and the malformed inputs
"", "Z4", "A" all yield 0. -/
theorem note_to_frequency_anchor_values :
    _note_to_frequency "A4" = Except.ok 440 ∧
    _note_to_frequency "A5" = Except.ok 880 ∧
    (∃ f : ℝ, _note_to_frequency "C4" = Except.ok f ∧ |f - 261.63| < 0.01) ∧
    _note_to_frequency "" = Except.ok 0 ∧
    _note_to_frequency "Z4" = Except.ok 0 ∧
    _note_to_frequency "A" = Except.ok 0 := by
  have hA4 : _note_to_frequency "A4" =
      Except.ok (440 * (2:ℝ) ^ ((((9:ℕ):ℝ) - 9) / 12 + (((4:ℕ):ℝ) - 4))) := rfl
  have hA5 : _note_to_frequency "A5" =
      Except.ok (440 * (2:ℝ) ^ ((((9:ℕ):ℝ) - 9) / 12 + (((5:ℕ):ℝ) - 4))) := rfl
  have hC4 : _note_to_frequency "C4" =
      Except.ok (440 * (2:ℝ) ^ ((((0:ℕ):ℝ) - 9) / 12 + (((4:ℕ):ℝ) - 4))) := rfl
  refine ⟨?_, ?_, ?_, rfl, rfl, rfl⟩
  · rw [hA4]
    have e0 : (((9:ℕ):ℝ) - 9) / 12 + (((4:ℕ):ℝ) - 4) = 0 := by norm_num
    rw [e0, Real.rpow_zero, mul_one]
  · rw [hA5]
    have e1 : (((9:ℕ):ℝ) - 9) / 12 + (((5:ℕ):ℝ) - 4) = 1 := by norm_num
    rw [e1, Real.rpow_one]
    norm_num
  · have eC : (((0:ℕ):ℝ) - 9) / 12 + (((4:ℕ):ℝ) - 4) = -(3/4 : ℝ) := by norm_num
    rw [hC4, eC]
    set x := (2:ℝ) ^ (-(3/4) : ℝ) with hxdef
    have hxpos : 0 < x := Real.rpow_pos_of_pos (by norm_num) _
    have hx4 : x ^ 4 = 1 / 8 := by
      rw [hxdef, ← Real.rpow_natCast ((2:ℝ) ^ (-(3/4):ℝ)) 4,
        ← Real.rpow_mul (by norm_num : (0:ℝ) ≤ 2)]
      have e3 : (-(3/4) : ℝ) * ((4:ℕ):ℝ) = ((-3 : ℤ) : ℝ) := by push_cast; ring
      rw [e3, Real.rpow_intCast]
      norm_num
    have hlo : (0.5946 : ℝ) < x := by
      have h4 : (0.5946 : ℝ) ^ 4 < x ^ 4 := by rw [hx4]; norm_num
      exact lt_of_pow_lt_pow_left₀ 4 (le_of_lt hxpos) h4
    have hhi : x < 0.59462 := by
      have h4 : x ^ 4 < (0.59462 : ℝ) ^ 4 := by rw [hx4]; norm_num
      exact lt_of_pow_lt_pow_left₀ 4 (by norm_num) h4
    refine ⟨440 * x, rfl, ?_⟩
    rw [abs_lt]
    constructor <;> nlinarith

/-- C3: `_calculate_improvement` returns `(0, "baseline")` when the
previous value is 0; otherwise it returns the exact percent change
`(current - previous) / previous * 100` with trend "baseline" iff the
percent change is within the open 1% band, "up" iff it is at least 1,
and "down" iff it is at most -1; the three concrete instances of the
claim hold. -/
theorem calculate_improvement_spec :
    (∀ x : ℝ, _calculate_improvement x 0 = (0, "baseline")) ∧
    (∀ c p : ℝ, p ≠ 0 →
      (_calculate_improvement c p).1 = (c - p) / p * 100 ∧
      ((_calculate_improvement c p).2 = "baseline" ↔ |(c - p) / p * 100| < 1) ∧
      ((_calculate_improvement c p).2 = "up" ↔ 1 ≤ (c - p) / p * 100) ∧
      ((_calculate_improvement c p).2 = "down" ↔ (c - p) / p * 100 ≤ -1)) ∧
    _calculate_improvement 110 100 = (10, "up") ∧
    _calculate_improvement 90 100 = (-10, "down") ∧
    _calculate_improvement 100.5 100 = (0.5, "baseline") := by
  refine ⟨?_, ?_, ?_, ?_, ?_⟩
  · intro x
    unfold _calculate_improvement
    rw [if_pos rfl]
    rfl
  · intro c p hp
    unfold _calculate_improvement
    rw [if_neg hp]
    simp only [TrendDirection.value]
    set pc := (c - p) / p * 100 with hpc
    by_cases h1 : |pc| < 1
    · rw [if_pos h1]
      refine ⟨rfl, ?_, ?_, ?_⟩
      · exact ⟨fun _ => h1, fun _ => rfl⟩
      · exact ⟨fun h => absurd h (by simp),
          fun h => absurd h (not_le.mpr (lt_of_abs_lt h1))⟩
      · exact ⟨fun h => absurd h (by simp),
          fun h => absurd h (not_le.mpr (neg_lt_of_abs_lt h1))⟩
    · rw [if_neg h1]
      by_cases h2 : 0 < pc
      · rw [if_pos h2]
        have hge : 1 ≤ pc := by
          have := not_lt.mp h1
          rwa [abs_of_pos h2] at this
        refine ⟨rfl, ?_, ?_, ?_⟩
        · exact ⟨fun h => absurd h (by simp), fun h => absurd h h1⟩
        · exact ⟨fun _ => hge, fun _ => rfl⟩
        · exact ⟨fun h => absurd h (by simp),
            fun h => absurd h (by intro hle; linarith)⟩
      · rw [if_neg h2]
        have hle : pc ≤ -1 := by
          have habs := not_lt.mp h1
          have hpc0 : pc ≤ 0 := not_lt.mp h2
          rw [abs_of_nonpos hpc0] at habs
          linarith
        refine ⟨rfl, ?_, ?_, ?_⟩
        · exact ⟨fun h => absurd h (by simp), fun h => absurd h h1⟩
        · exact ⟨fun h => absurd h (by simp),
            fun h => absurd h (by intro hge; linarith)⟩
        · exact ⟨fun _ => hle, fun _ => rfl⟩
  · unfold _calculate_improvement
    rw [if_neg (by norm_num : (100:ℝ) ≠ 0)]
    norm_num [TrendDirection.value, abs_lt]
  · unfold _calculate_improvement
    rw [if_neg (by norm_num : (100:ℝ) ≠ 0)]
    norm_num [TrendDirection.value, abs_lt]
  · unfold _calculate_improvement
    rw [if_neg (by norm_num : (100:ℝ) ≠ 0)]
    norm_num [TrendDirection.value, abs_lt]

/-- Witness for C3 at `current = 110`, `previous = 100`. -/
theorem calculate_improvement_spec_witness :
    ((100 : ℝ) ≠ 0) ∧
    ((_calculate_improvement 110 100).2 = "up" ↔ 1 ≤ ((110 : ℝ) - 100) / 100 * 100) :=
  ⟨by norm_num, (calculate_improvement_spec.2.1 110 100 (by norm_num)).2.2.1⟩

lemma pyMaxByNatGo_mem (key : String → ℕ) (l : List String) :
    ∀ best, pyMaxByNatGo key best l = best ∨ pyMaxByNatGo key best l ∈ l := by
  induction l with
  | nil => intro best; left; rfl
  | cons a rest ih =>
    intro best
    unfold pyMaxByNatGo
    by_cases h : key best < key a
    · rw [if_pos h]
      rcases ih a with h1 | h1
      · right; rw [h1]; exact List.mem_cons_self a rest
      · right; exact List.mem_cons_of_mem a h1
    · rw [if_neg h]
      rcases ih best with h1 | h1
      · left; exact h1
      · right; exact List.mem_cons_of_mem a h1

lemma pyMaxByNatGo_le (key : String → ℕ) (l : List String) :
    ∀ best, key best ≤ key (pyMaxByNatGo key best l) ∧
      ∀ y ∈ l, key y ≤ key (pyMaxByNatGo key best l) := by
  induction l with
  | nil => intro best; exact ⟨le_refl _, by simp⟩
  | cons a rest ih =>
    intro best
    unfold pyMaxByNatGo
    by_cases h : key best < key a
    · rw [if_pos h]
      obtain ⟨hb, hall⟩ := ih a
      refine ⟨le_trans (le_of_lt h) hb, ?_⟩
      intro y hy
      rcases List.mem_cons.mp hy with rfl | hy
      · exact hb
      · exact hall y hy
    · rw [if_neg h]
      obtain ⟨hb, hall⟩ := ih best
      refine ⟨hb, ?_⟩
      intro y hy
      rcases List.mem_cons.mp hy with rfl | hy
      · exact le_trans (not_lt.mp h) hb
      · exact hall y hy

lemma pyMinBySessionGo_ok (key : SessionMetrics → Except Unit ℝ) (l : List SessionMetrics)
    (hl : ∀ s ∈ l, ∃ k, key s = Except.ok k) :
    ∀ best bk, ∃ r, pyMinBySessionGo key best bk l = Except.ok r := by
  induction l with
  | nil => intro best bk; exact ⟨best, rfl⟩
  | cons a rest ih =>
    intro best bk
    obtain ⟨ka, hka⟩ := hl a (List.mem_cons_self a rest)
    have hrest : ∀ s ∈ rest, ∃ k, key s = Except.ok k :=
      fun s hs => hl s (List.mem_cons_of_mem a hs)
    simp only [pyMinBySessionGo, hka]
    by_cases h : ka < bk
    · rw [if_pos h]; exact ih hrest a ka
    · rw [if_neg h]; exact ih hrest best bk

lemma pyMinBySession_ok (key : SessionMetrics → Except Unit ℝ)
    (s0 : SessionMetrics) (rest : List SessionMetrics)
    (hl : ∀ s ∈ s0 :: rest, ∃ k, key s = Except.ok k) :
    ∃ r, pyMinBySession key (s0 :: rest) = Except.ok r := by
  obtain ⟨k0, hk0⟩ := hl s0 (List.mem_cons_self s0 rest)
  simp only [pyMinBySession, hk0]
  exact pyMinBySessionGo_ok key rest (fun s hs => hl s (List.mem_cons_of_mem s0 hs)) s0 k0

lemma pyMaxBySessionGo_ok (key : SessionMetrics → Except Unit ℝ) (l : List SessionMetrics)
    (hl : ∀ s ∈ l, ∃ k, key s = Except.ok k) :
    ∀ best bk, ∃ r, pyMaxBySessionGo key best bk l = Except.ok r := by
  induction l with
  | nil => intro best bk; exact ⟨best, rfl⟩
  | cons a rest ih =>
    intro best bk
    obtain ⟨ka, hka⟩ := hl a (List.mem_cons_self a rest)
    have hrest : ∀ s ∈ rest, ∃ k, key s = Except.ok k :=
      fun s hs => hl s (List.mem_cons_of_mem a hs)
    simp only [pyMaxBySessionGo, hka]
    by_cases h : bk < ka
    · rw [if_pos h]; exact ih hrest a ka
    · rw [if_neg h]; exact ih hrest best bk

lemma pyMaxBySession_ok (key : SessionMetrics → Except Unit ℝ)
    (s0 : SessionMetrics) (rest : List SessionMetrics)
    (hl : ∀ s ∈ s0 :: rest, ∃ k, key s = Except.ok k) :
    ∃ r, pyMaxBySession key (s0 :: rest) = Except.ok r := by
  obtain ⟨k0, hk0⟩ := hl s0 (List.mem_cons_self s0 rest)
  simp only [pyMaxBySession, hk0]
  exact pyMaxBySessionGo_ok key rest (fun s hs => hl s (List.mem_cons_of_mem s0 hs)) s0 k0

lemma note_to_frequency_ok_of_noteWF (n : String) (h : noteWF n = true) :
    ∃ k, _note_to_frequency n = Except.ok k := by
  have hparse : ∃ v, _note_to_frequency_parse n = Except.ok v := by
    unfold noteWF at h
    split at h
    case _ c d hd =>
      have hc : (charToDigit d).isSome = true := by
        simp only [Bool.and_eq_true] at h
        exact h.2
      obtain ⟨o, ho⟩ := Option.isSome_iff_exists.mp hc
      have hlen : ¬ n.length < 2 := by
        simp [String.length, hd]
      have hlast : n.data.getLastD ' ' = d := by
        rw [hd]; rfl
      unfold _note_to_frequency_parse
      rw [if_neg hlen]
      simp only [hlast, ho]
      rcases hidx : listIndexOf note_names ⟨n.data.dropLast⟩ with _ | idx
      · exact ⟨none, rfl⟩
      · exact ⟨some (idx, o), rfl⟩
    case _ c sharp d hd =>
      have hc : (charToDigit d).isSome = true := by
        simp only [Bool.and_eq_true] at h
        exact h.2
      obtain ⟨o, ho⟩ := Option.isSome_iff_exists.mp hc
      have hlen : ¬ n.length < 2 := by
        simp [String.length, hd]
      have hlast : n.data.getLastD ' ' = d := by
        rw [hd]; rfl
      unfold _note_to_frequency_parse
      rw [if_neg hlen]
      simp only [hlast, ho]
      rcases hidx : listIndexOf note_names ⟨n.data.dropLast⟩ with _ | idx
      · exact ⟨none, rfl⟩
      · exact ⟨some (idx, o), rfl⟩
    case _ => simp at h
  obtain ⟨v, hv⟩ := hparse
  unfold _note_to_frequency
  rw [hv]
  rcases v with _ | ⟨i, o⟩
  · exact ⟨0, rfl⟩
  · exact ⟨_, rfl⟩

lemma aggregate_cons_eq (setOrder : List String → List String)
    (s0 : SessionMetrics) (rest : List SessionMetrics)
    (dyn vt : String) (low high : SessionMetrics)
    (hdyn : pyMaxByNat (countMatches ((s0 :: rest).map (fun s => s.dynamics)))
      (setOrder ((s0 :: rest).map (fun s => s.dynamics))) = Except.ok dyn)
    (hvt : pyMaxByNat (countMatches ((s0 :: rest).map (fun s => s.voice_type)))
      (setOrder ((s0 :: rest).map (fun s => s.voice_type))) = Except.ok vt)
    (hlow : pyMinBySession (fun x => _note_to_frequency x.lowest_note) (s0 :: rest) =
      Except.ok low)
    (hhigh : pyMaxBySession (fun x => _note_to_frequency x.highest_note) (s0 :: rest) =
      Except.ok high) :
    _aggregate_daily_metrics setOrder (s0 :: rest) = Except.ok (some
      { date := s0.timestamp.day
        session_count := (s0 :: rest).length
        mean_pitch_avg := statistics_mean ((s0 :: rest).map (fun s => s.mean_pitch))
        vibrato_rate_avg := statistics_mean ((s0 :: rest).map (fun s => s.vibrato_rate))
        jitter_avg := statistics_mean ((s0 :: rest).map (fun s => s.jitter))
        shimmer_avg := statistics_mean ((s0 :: rest).map (fun s => s.shimmer))
        dynamics_mode := dyn
        voice_type_mode := vt
        lowest_note := low.lowest_note
        highest_note := high.highest_note
        pitch_stability := if 1 < ((s0 :: rest).map (fun s => s.mean_pitch)).length
          then statistics_stdev ((s0 :: rest).map (fun s => s.mean_pitch)) else 0
        practice_consistency :=
          (timeSpreadHours s0.timestamp (rest.map (fun s => s.timestamp)) : ℝ) }) := by
  unfold _aggregate_daily_metrics
  simp only [hdyn, hvt, hlow, hhigh]

lemma setOrder_ne_nil_of_isSetOrder {order l : List String} (h : IsSetOrder order l)
    (hl : l ≠ []) : order ≠ [] := by
  obtain ⟨x, t, rfl⟩ := List.exists_cons_of_ne_nil hl
  intro hord
  have : x ∈ order := h.2.2 x (List.mem_cons_self x t)
  rw [hord] at this
  exact absurd this (List.not_mem_nil x)

lemma aggregate_succeeds (o : List String → List String)
    (s0 : SessionMetrics) (rest : List SessionMetrics)
    (hwf : ∀ s ∈ s0 :: rest, noteWF s.lowest_note = true ∧ noteWF s.highest_note = true)
    (hdynOrd : IsSetOrder (o ((s0 :: rest).map (fun s => s.dynamics)))
      ((s0 :: rest).map (fun s => s.dynamics)))
    (hvtOrd : IsSetOrder (o ((s0 :: rest).map (fun s => s.voice_type)))
      ((s0 :: rest).map (fun s => s.voice_type))) :
    ∃ dyn vt low high,
      pyMaxByNat (countMatches ((s0 :: rest).map (fun s => s.dynamics)))
        (o ((s0 :: rest).map (fun s => s.dynamics))) = Except.ok dyn ∧
      pyMaxByNat (countMatches ((s0 :: rest).map (fun s => s.voice_type)))
        (o ((s0 :: rest).map (fun s => s.voice_type))) = Except.ok vt ∧
      pyMinBySession (fun x => _note_to_frequency x.lowest_note) (s0 :: rest) =
        Except.ok low ∧
      pyMaxBySession (fun x => _note_to_frequency x.highest_note) (s0 :: rest) =
        Except.ok high := by
  have hdne : o ((s0 :: rest).map (fun s => s.dynamics)) ≠ [] :=
    setOrder_ne_nil_of_isSetOrder hdynOrd (by simp)
  have hvne : o ((s0 :: rest).map (fun s => s.voice_type)) ≠ [] :=
    setOrder_ne_nil_of_isSetOrder hvtOrd (by simp)
  obtain ⟨d0, dtl, hd⟩ := List.exists_cons_of_ne_nil hdne
  obtain ⟨v0, vtl, hv⟩ := List.exists_cons_of_ne_nil hvne
  obtain ⟨low, hlow⟩ := pyMinBySession_ok (fun x => _note_to_frequency x.lowest_note) s0 rest
    (fun s hs => note_to_frequency_ok_of_noteWF s.lowest_note (hwf s hs).1)
  obtain ⟨high, hhigh⟩ := pyMaxBySession_ok (fun x => _note_to_frequency x.highest_note) s0 rest
    (fun s hs => note_to_frequency_ok_of_noteWF s.highest_note (hwf s hs).2)
  refine ⟨pyMaxByNatGo (countMatches ((s0 :: rest).map (fun s => s.dynamics))) d0 dtl,
    pyMaxByNatGo (countMatches ((s0 :: rest).map (fun s => s.voice_type))) v0 vtl,
    low, high, ?_, ?_, hlow, hhigh⟩
  · rw [hd]; rfl
  · rw [hv]; rfl

/-- C5: for any non-empty session list (with data-model-conforming note
strings and admissible set orders), `_aggregate_daily_metrics` succeeds,
its `session_count` is the length of the list, and the four numeric
averages are the arithmetic means of the corresponding fields; the empty
list yields `None`. -/
theorem aggregate_counts_and_means (o : List String → List String)
    (ss : List SessionMetrics) :
    _aggregate_daily_metrics o [] = Except.ok none ∧
    (ss ≠ [] →
      (∀ s ∈ ss, noteWF s.lowest_note = true ∧ noteWF s.highest_note = true) →
      IsSetOrder (o (ss.map (fun s => s.dynamics))) (ss.map (fun s => s.dynamics)) →
      IsSetOrder (o (ss.map (fun s => s.voice_type))) (ss.map (fun s => s.voice_type)) →
      ∃ dm, _aggregate_daily_metrics o ss = Except.ok (some dm) ∧
        dm.session_count = ss.length ∧
        dm.mean_pitch_avg = (ss.map (fun s => s.mean_pitch)).sum / (ss.length : ℝ) ∧
        dm.vibrato_rate_avg = (ss.map (fun s => s.vibrato_rate)).sum / (ss.length : ℝ) ∧
        dm.jitter_avg = (ss.map (fun s => s.jitter)).sum / (ss.length : ℝ) ∧
        dm.shimmer_avg = (ss.map (fun s => s.shimmer)).sum / (ss.length : ℝ)) := by
  refine ⟨rfl, ?_⟩
  intro hne hwf hdynOrd hvtOrd
  obtain ⟨s0, rest, rfl⟩ := List.exists_cons_of_ne_nil hne
  obtain ⟨dyn, vt, low, high, hdyn, hvt, hlow, hhigh⟩ :=
    aggregate_succeeds o s0 rest hwf hdynOrd hvtOrd
  refine ⟨_, aggregate_cons_eq o s0 rest dyn vt low high hdyn hvt hlow hhigh, rfl, ?_, ?_, ?_, ?_⟩ <;>
    simp [statistics_mean]

/-- Witness for C5: a one-session day. -/
theorem aggregate_counts_and_means_witness :
    ([sessionA] ≠ []) ∧
    ∃ dm, _aggregate_daily_metrics (fun l => l) [sessionA] = Except.ok (some dm) ∧
      dm.session_count = 1 := by
  have h := (aggregate_counts_and_means (fun l => l) [sessionA]).2 (by simp)
    (by
      intro s hs
      rw [List.mem_singleton] at hs
      subst hs
      exact ⟨rfl, rfl⟩)
    (by exact ⟨by simp [sessionA], by simp, by simp⟩)
    (by exact ⟨by simp [sessionA], by simp, by simp⟩)
  obtain ⟨dm, h1, h2, _⟩ := h
  exact ⟨by simp, dm, h1, h2⟩

/-- C6: for a non-empty session list (data-model note strings, admissible
set orders), `pitch_stability` is 0 for a single session and the sample
standard deviation (N-1 denominator) of the `mean_pitch` values for two
or more sessions. -/
theorem aggregate_pitch_stability_spec (o : List String → List String)
    (ss : List SessionMetrics)
    (hne : ss ≠ [])
    (hwf : ∀ s ∈ ss, noteWF s.lowest_note = true ∧ noteWF s.highest_note = true)
    (hdynOrd : IsSetOrder (o (ss.map (fun s => s.dynamics))) (ss.map (fun s => s.dynamics)))
    (hvtOrd : IsSetOrder (o (ss.map (fun s => s.voice_type))) (ss.map (fun s => s.voice_type))) :
    ∃ dm, _aggregate_daily_metrics o ss = Except.ok (some dm) ∧
      (ss.length = 1 → dm.pitch_stability = 0) ∧
      (2 ≤ ss.length →
        dm.pitch_stability = Real.sqrt
          (((ss.map (fun s => s.mean_pitch)).map
              (fun x => (x - (ss.map (fun s => s.mean_pitch)).sum / (ss.length : ℝ)) ^ 2)).sum /
            ((ss.length : ℝ) - 1))) := by
  obtain ⟨s0, rest, rfl⟩ := List.exists_cons_of_ne_nil hne
  obtain ⟨dyn, vt, low, high, hdyn, hvt, hlow, hhigh⟩ :=
    aggregate_succeeds o s0 rest hwf hdynOrd hvtOrd
  refine ⟨_, aggregate_cons_eq o s0 rest dyn vt low high hdyn hvt hlow hhigh, ?_, ?_⟩
  · intro h1
    simp only [List.length_map]
    rw [if_neg (by omega)]
  · intro h2
    simp only [List.length_map]
    rw [if_pos (by omega)]
    simp [statistics_stdev, statistics_mean]

/-- Witness for C6: a one-session day has pitch_stability 0. -/
theorem aggregate_pitch_stability_witness :
    ([sessionA] ≠ []) ∧
    ∃ dm, _aggregate_daily_metrics (fun l => l) [sessionA] = Except.ok (some dm) ∧
      dm.pitch_stability = 0 := by
  have h := aggregate_pitch_stability_spec (fun l => l) [sessionA] (by simp)
    (by
      intro s hs
      rw [List.mem_singleton] at hs
      subst hs
      exact ⟨rfl, rfl⟩)
    (by exact ⟨by simp [sessionA], by simp, by simp⟩)
    (by exact ⟨by simp [sessionA], by simp, by simp⟩)
  obtain ⟨dm, h1, h2, _⟩ := h
  exact ⟨by simp, dm, h1, h2 rfl⟩

lemma pyMaxByNat_max_of_setOrder (l order : List String) (hord : IsSetOrder order l)
    (d0 : String) (dtl : List String) (h : order = d0 :: dtl) :
    pyMaxByNatGo (countMatches l) d0 dtl ∈ l ∧
      ∀ x ∈ l, countMatches l x ≤ countMatches l (pyMaxByNatGo (countMatches l) d0 dtl) := by
  constructor
  · rcases pyMaxByNatGo_mem (countMatches l) dtl d0 with h1 | h1
    · apply hord.2.1
      rw [h, h1]
      exact List.mem_cons_self _ _
    · apply hord.2.1
      rw [h]
      exact List.mem_cons_of_mem _ h1
  · intro x hx
    have hxo : x ∈ order := hord.2.2 x hx
    rw [h] at hxo
    obtain ⟨hb, hall⟩ := pyMaxByNatGo_le (countMatches l) dtl d0
    rcases List.mem_cons.mp hxo with rfl | hxd
    · exact hb
    · exact hall x hxd

/-- C4 (amended): for a non-empty session list, the aggregator's
`dynamics_mode` and `voice_type_mode` are values present in the input
with maximal occurrence count; the tie between equally frequent values
is broken by the iteration order of the Python `set`, which the language
leaves unspecified — not necessarily by first appearance in the input. -/
theorem aggregate_mode_max_count (o : List String → List String)
    (ss : List SessionMetrics)
    (hne : ss ≠ [])
    (hwf : ∀ s ∈ ss, noteWF s.lowest_note = true ∧ noteWF s.highest_note = true)
    (hdynOrd : IsSetOrder (o (ss.map (fun s => s.dynamics))) (ss.map (fun s => s.dynamics)))
    (hvtOrd : IsSetOrder (o (ss.map (fun s => s.voice_type))) (ss.map (fun s => s.voice_type))) :
    ∃ dm, _aggregate_daily_metrics o ss = Except.ok (some dm) ∧
      dm.dynamics_mode ∈ ss.map (fun s => s.dynamics) ∧
      (∀ x ∈ ss.map (fun s => s.dynamics),
        countMatches (ss.map (fun s => s.dynamics)) x ≤
          countMatches (ss.map (fun s => s.dynamics)) dm.dynamics_mode) ∧
      dm.voice_type_mode ∈ ss.map (fun s => s.voice_type) ∧
      (∀ x ∈ ss.map (fun s => s.voice_type),
        countMatches (ss.map (fun s => s.voice_type)) x ≤
          countMatches (ss.map (fun s => s.voice_type)) dm.voice_type_mode) := by
  obtain ⟨s0, rest, rfl⟩ := List.exists_cons_of_ne_nil hne
  have hdne : o ((s0 :: rest).map (fun s => s.dynamics)) ≠ [] :=
    setOrder_ne_nil_of_isSetOrder hdynOrd (by simp)
  have hvne : o ((s0 :: rest).map (fun s => s.voice_type)) ≠ [] :=
    setOrder_ne_nil_of_isSetOrder hvtOrd (by simp)
  obtain ⟨d0, dtl, hd⟩ := List.exists_cons_of_ne_nil hdne
  obtain ⟨v0, vtl, hv⟩ := List.exists_cons_of_ne_nil hvne
  obtain ⟨low, hlow⟩ := pyMinBySession_ok (fun x => _note_to_frequency x.lowest_note) s0 rest
    (fun s hs => note_to_frequency_ok_of_noteWF s.lowest_note (hwf s hs).1)
  obtain ⟨high, hhigh⟩ := pyMaxBySession_ok (fun x => _note_to_frequency x.highest_note) s0 rest
    (fun s hs => note_to_frequency_ok_of_noteWF s.highest_note (hwf s hs).2)
  have hdyn : pyMaxByNat (countMatches ((s0 :: rest).map (fun s => s.dynamics)))
      (o ((s0 :: rest).map (fun s => s.dynamics))) =
      Except.ok (pyMaxByNatGo (countMatches ((s0 :: rest).map (fun s => s.dynamics))) d0 dtl) := by
    rw [hd]; rfl
  have hvt : pyMaxByNat (countMatches ((s0 :: rest).map (fun s => s.voice_type)))
      (o ((s0 :: rest).map (fun s => s.voice_type))) =
      Except.ok (pyMaxByNatGo (countMatches ((s0 :: rest).map (fun s => s.voice_type))) v0 vtl) := by
    rw [hv]; rfl
  obtain ⟨hdmem, hdmax⟩ := pyMaxByNat_max_of_setOrder
    ((s0 :: rest).map (fun s => s.dynamics)) _ hdynOrd d0 dtl hd
  obtain ⟨hvmem, hvmax⟩ := pyMaxByNat_max_of_setOrder
    ((s0 :: rest).map (fun s => s.voice_type)) _ hvtOrd v0 vtl hv
  exact ⟨_, aggregate_cons_eq o s0 rest _ _ low high hdyn hvt hlow hhigh,
    hdmem, hdmax, hvmem, hvmax⟩

/-- Witness for C4's amended statement: two sessions with tied dynamics
labels, first-seen set order. -/
theorem aggregate_mode_max_count_witness :
    ([sessionA, sessionB] ≠ []) ∧
    ∃ dm, _aggregate_daily_metrics firstSeenDedup [sessionA, sessionB] = Except.ok (some dm) ∧
      dm.dynamics_mode ∈ [sessionA, sessionB].map (fun s => s.dynamics) := by
  have h := aggregate_mode_max_count firstSeenDedup [sessionA, sessionB] (by simp)
    (by
      intro s hs
      rcases List.mem_cons.mp hs with rfl | hs
      · exact ⟨rfl, rfl⟩
      · rw [List.mem_singleton] at hs
        subst hs
        exact ⟨rfl, rfl⟩)
    (by constructor
        · decide
        · constructor <;> decide)
    (by constructor
        · decide
        · constructor <;> decide)
  obtain ⟨dm, h1, h2, _⟩ := h
  exact ⟨by simp, dm, h1, h2⟩

lemma note_freq_A4_eq : _note_to_frequency "A4" =
    Except.ok (440 * (2:ℝ) ^ ((((9:ℕ):ℝ) - 9) / 12 + (((4:ℕ):ℝ) - 4))) := rfl

lemma pyMin_sessionAB :
    pyMinBySession (fun x => _note_to_frequency x.lowest_note) [sessionA, sessionB] =
      Except.ok sessionA := by
  have hA : sessionA.lowest_note = "A4" := rfl
  have hB : sessionB.lowest_note = "A4" := rfl
  simp only [pyMinBySession, pyMinBySessionGo, hA, hB, note_freq_A4_eq]
  rw [if_neg (lt_irrefl _)]

lemma pyMax_sessionAB :
    pyMaxBySession (fun x => _note_to_frequency x.highest_note) [sessionA, sessionB] =
      Except.ok sessionA := by
  have hA : sessionA.highest_note = "A4" := rfl
  have hB : sessionB.highest_note = "A4" := rfl
  simp only [pyMaxBySession, pyMaxBySessionGo, hA, hB, note_freq_A4_eq]
  rw [if_neg (lt_irrefl _)]

/-- C4 is refuted as stated: the sessions' dynamics are ["a", "b"], a
tie; ["b", "a"] is an admissible iteration order of `set(["a", "b"])`;
with that order the aggregator returns dynamics_mode "b", while the
first-seen tie-break demanded by the claim gives "a". -/
theorem mode_tie_break_not_first_seen :
    IsSetOrder (reversedSetOrder ["a", "b"]) ["a", "b"] ∧
    firstSeenMode ["a", "b"] = Except.ok "a" ∧
    (∃ dm, _aggregate_daily_metrics reversedSetOrder [sessionA, sessionB] =
      Except.ok (some dm) ∧ dm.dynamics_mode = "b") ∧
    ("b" : String) ≠ "a" := by
  have hdyn : pyMaxByNat (countMatches ([sessionA, sessionB].map (fun s => s.dynamics)))
      (reversedSetOrder ([sessionA, sessionB].map (fun s => s.dynamics))) =
      Except.ok "b" := rfl
  have hvt : pyMaxByNat (countMatches ([sessionA, sessionB].map (fun s => s.voice_type)))
      (reversedSetOrder ([sessionA, sessionB].map (fun s => s.voice_type))) =
      Except.ok "tenor" := rfl
  refine ⟨⟨by decide, by decide, by decide⟩, rfl, ?_, by decide⟩
  exact ⟨_, aggregate_cons_eq reversedSetOrder sessionA [sessionB] "b" "tenor"
    sessionA sessionA hdyn hvt pyMin_sessionAB pyMax_sessionAB, rfl⟩

/-- C8: `generate_daily_report` is total for every collaborator
behaviour: its value is the successfully assembled report of the
try-block body when no step raises, and otherwise — whatever step of the
body raises — the fallback report produced by the top-level exception
handler.  There is no error return path. -/
theorem generate_daily_report_total (c : Collaborators) (user_id date : String) :
    (∃ r, generate_daily_report_body c user_id date = Except.ok r ∧
      generate_daily_report c user_id date = r) ∨
    (generate_daily_report_body c user_id date = Except.error () ∧
      generate_daily_report c user_id date = _generate_fallback_report user_id date) := by
  rcases h : generate_daily_report_body c user_id date with e | r
  · right
    cases e
    exact ⟨rfl, by unfold generate_daily_report; rw [h]⟩
  · left
    exact ⟨r, rfl, by unfold generate_daily_report; rw [h]⟩

/-- C9: when the session store yields no sessions for the requested
date, `generate_daily_report` returns the fallback report: id prefixed
"fallback_" (never "report_"), empty metrics mapping, zero
practice_sessions and total_practice_time, and fixed three-item
insights and recommendations lists. -/
theorem generate_daily_report_zero_sessions_fallback (c : Collaborators)
    (user_id date : String)
    (h : _get_daily_sessions c user_id date = []) :
    generate_daily_report c user_id date = _generate_fallback_report user_id date ∧
    (∃ rest, (generate_daily_report c user_id date).id = "fallback_" ++ rest) ∧
    (∀ t, (generate_daily_report c user_id date).id ≠ "report_" ++ t) ∧
    (generate_daily_report c user_id date).metrics = [] ∧
    (generate_daily_report c user_id date).practice_sessions = 0 ∧
    (generate_daily_report c user_id date).total_practice_time = 0 ∧
    (generate_daily_report c user_id date).insights.length = 3 ∧
    (generate_daily_report c user_id date).recommendations.length = 3 := by
  have hrep : generate_daily_report c user_id date = _generate_fallback_report user_id date := by
    unfold generate_daily_report generate_daily_report_body
    rw [h]
  rw [hrep]
  refine ⟨rfl, ⟨user_id ++ "_" ++ date, ?_⟩, ?_, rfl, rfl, rfl, rfl, rfl⟩
  · show "fallback_" ++ user_id ++ "_" ++ date = "fallback_" ++ (user_id ++ "_" ++ date)
    simp [String.append_assoc]
  · intro t hT
    have hT2 : "fallback_" ++ user_id ++ "_" ++ date = "report_" ++ t := hT
    have hd := congrArg String.data hT2
    have hfb : ("fallback_" ++ user_id ++ "_" ++ date).data =
        'f' :: ("allback_" ++ user_id ++ "_" ++ date).data := rfl
    have hrp : ("report_" ++ t).data = 'r' :: ("eport_" ++ t).data := rfl
    rw [hfb, hrp] at hd
    simp only [List.cons.injEq] at hd
    exact absurd hd.1 (by decide)

/-- Witness for C9: collaborators whose store returns no sessions. -/
theorem generate_daily_report_zero_sessions_fallback_witness :
    (_get_daily_sessions emptyStoreCollab "user1" "2024-01-02" = []) ∧
    (generate_daily_report emptyStoreCollab "user1" "2024-01-02").metrics = [] :=
  ⟨rfl,
    (generate_daily_report_zero_sessions_fallback emptyStoreCollab "user1" "2024-01-02"
      rfl).2.2.2.1⟩

lemma calc_improvement_prev_zero (x : ℝ) : _calculate_improvement x 0 = (0, "baseline") := by
  unfold _calculate_improvement
  rw [if_pos rfl]
  rfl

lemma calc_improvement_self (x : ℝ) : _calculate_improvement x x = (0, "baseline") := by
  unfold _calculate_improvement
  by_cases hx : x = 0
  · rw [if_pos hx]; rfl
  · rw [if_neg hx]
    have h0 : (x - x) / x * 100 = 0 := by rw [sub_self, zero_div, zero_mul]
    simp only [h0]
    rw [if_pos (by rw [abs_zero]; norm_num : |(0:ℝ)| < 1)]
    rfl

lemma calculate_improvement_cases (a b : ℝ) :
    (b = 0 ∧ _calculate_improvement a b = (0, "baseline")) ∨
    (_calculate_improvement a b = ((a - b) / b * 100, "baseline") ∧ |(a - b) / b * 100| < 1) ∨
    (_calculate_improvement a b = ((a - b) / b * 100, "up") ∧ 1 ≤ (a - b) / b * 100) ∨
    (_calculate_improvement a b = ((a - b) / b * 100, "down") ∧ (a - b) / b * 100 ≤ -1) := by
  unfold _calculate_improvement
  by_cases hb : b = 0
  · left
    exact ⟨hb, by rw [if_pos hb]; rfl⟩
  · rw [if_neg hb]
    simp only [TrendDirection.value]
    by_cases h1 : |(a - b) / b * 100| < 1
    · right; left
      rw [if_pos h1]
      exact ⟨rfl, h1⟩
    · rw [if_neg h1]
      by_cases h2 : 0 < (a - b) / b * 100
      · right; right; left
        rw [if_pos h2]
        refine ⟨rfl, ?_⟩
        have habs := not_lt.mp h1
        rwa [abs_of_pos h2] at habs
      · right; right; right
        rw [if_neg h2]
        refine ⟨rfl, ?_⟩
        have habs := not_lt.mp h1
        have h0 : (a - b) / b * 100 ≤ 0 := not_lt.mp h2
        rw [abs_of_nonpos h0] at habs
        linarith

lemma trendConsistent_of_calc (cur prev : ℝ) (po ch : Option ℝ) :
    TrendConsistent
      { current := cur
        previous := po
        change := ch
        trend := (_calculate_improvement cur prev).2
        improvement_percentage := some (_calculate_improvement cur prev).1 } := by
  unfold TrendConsistent
  rcases calculate_improvement_cases cur prev with ⟨_, he⟩ | ⟨he, hp⟩ | ⟨he, hp⟩ | ⟨he, hp⟩ <;>
    rw [he]
  · exact ⟨fun h => absurd h (by simp), fun h => absurd h (by simp),
      fun _ => ⟨0, rfl, by rw [abs_zero]; norm_num⟩⟩
  · exact ⟨fun h => absurd h (by simp), fun h => absurd h (by simp),
      fun _ => ⟨_, rfl, hp⟩⟩
  · exact ⟨fun _ => ⟨_, rfl, hp⟩, fun h => absurd h (by simp),
      fun h => absurd h (by simp)⟩
  · exact ⟨fun h => absurd h (by simp), fun _ => ⟨_, rfl, hp⟩,
      fun h => absurd h (by simp)⟩

lemma buildMetrics_none (dm : DailyMetrics) :
    buildMetrics dm none =
      [("mean_pitch",
        { current := dm.mean_pitch_avg
          previous := none
          change := some (dm.mean_pitch_avg - dm.mean_pitch_avg)
          trend := (_calculate_improvement dm.mean_pitch_avg dm.mean_pitch_avg).2
          improvement_percentage :=
            some (_calculate_improvement dm.mean_pitch_avg dm.mean_pitch_avg).1 }),
       ("vibrato_rate",
        { current := dm.vibrato_rate_avg
          previous := none
          change := some (dm.vibrato_rate_avg - dm.vibrato_rate_avg)
          trend := (_calculate_improvement dm.vibrato_rate_avg dm.vibrato_rate_avg).2
          improvement_percentage :=
            some (_calculate_improvement dm.vibrato_rate_avg dm.vibrato_rate_avg).1 }),
       ("jitter",
        { current := dm.jitter_avg
          previous := none
          change := some (dm.jitter_avg - dm.jitter_avg)
          trend := (_calculate_improvement dm.jitter_avg dm.jitter_avg).2
          improvement_percentage :=
            some (_calculate_improvement dm.jitter_avg dm.jitter_avg).1 }),
       ("shimmer",
        { current := dm.shimmer_avg
          previous := none
          change := some (dm.shimmer_avg - dm.shimmer_avg)
          trend := (_calculate_improvement dm.shimmer_avg dm.shimmer_avg).2
          improvement_percentage :=
            some (_calculate_improvement dm.shimmer_avg dm.shimmer_avg).1 }),
       ("total_sessions",
        { current := (dm.session_count : ℝ)
          previous := none
          change := some ((dm.session_count : ℝ) - 0)
          trend := (_calculate_improvement (dm.session_count : ℝ) 0).2
          improvement_percentage :=
            some (_calculate_improvement (dm.session_count : ℝ) 0).1 })] := rfl

lemma generate_daily_report_metrics_shape (c : Collaborators) (u d : String) :
    (generate_daily_report c u d).metrics = [] ∨
    ∃ dm pm pd, (generate_daily_report c u d).metrics = buildMetrics dm pm ∧
      c.strptimePrev d = Except.ok pd ∧
      (_get_daily_sessions c u pd = [] → pm = none) := by
  unfold generate_daily_report generate_daily_report_body
  split
  · left; rfl
  · rename_i report heq
    split at heq
    · cases heq; left; rfl
    · split at heq
      · cases heq
      · cases heq; left; rfl
      · rename_i daily_metrics hagg
        split at heq
        · cases heq
        · rename_i previous_date hprevdate
          split at heq
          · cases heq
          · rename_i previous_metrics hprevm
            cases heq
            right
            refine ⟨daily_metrics, previous_metrics, previous_date, rfl, hprevdate, ?_⟩
            intro h0
            rw [h0] at hprevm
            simpa using hprevm.symm

/-- C10: in every `MetricComparison` of a generated report, the `trend`
and `improvement_percentage` fields are mutually consistent: "up"
implies at least +1 percent, "down" implies at most -1 percent,
"baseline" implies strictly within the 1% band.  Both fields come from
two calls of the pure `_calculate_improvement` with identical arguments,
so they agree. -/
theorem metric_comparison_trend_consistent (c : Collaborators) (u d : String)
    (k : String) (mc : MetricComparison)
    (hmem : (k, mc) ∈ (generate_daily_report c u d).metrics) :
    TrendConsistent mc := by
  rcases generate_daily_report_metrics_shape c u d with h | ⟨dm, pm, pd, h, _, _⟩
  · rw [h] at hmem
    exact absurd hmem (List.not_mem_nil _)
  · rw [h] at hmem
    unfold buildMetrics at hmem
    simp only [List.mem_cons, List.not_mem_nil, or_false] at hmem
    rcases hmem with h1 | h1 | h1 | h1 | h1 <;>
      (rw [Prod.ext_iff] at h1
       obtain ⟨hk, hmc⟩ := h1
       simp only at hmc
       subst hmc) <;>
      exact trendConsistent_of_calc _ _ _ _

/-- C2 (amended): for a report whose previous-day fetch returns no
sessions, every comparison in the metrics mapping has previous = None,
trend = "baseline" and improvement_percentage = 0; the four vocal
metrics also have change = 0 (current minus the current-value fallback),
but total_sessions has change equal to its current value, because its
missing-previous fallback inside `change` and the Trend Engine call is 0
rather than the current value. -/
theorem first_day_comparisons_amended (c : Collaborators) (u d pd : String)
    (hpd : c.strptimePrev d = Except.ok pd)
    (hprev : _get_daily_sessions c u pd = [])
    (k : String) (mc : MetricComparison)
    (hmem : (k, mc) ∈ (generate_daily_report c u d).metrics) :
    mc.previous = none ∧ mc.trend = "baseline" ∧ mc.improvement_percentage = some 0 ∧
    (k ≠ "total_sessions" → mc.change = some 0) ∧
    (k = "total_sessions" → mc.change = some mc.current) := by
  rcases generate_daily_report_metrics_shape c u d with h | ⟨dm, pm, pd2, h, hp2, himp⟩
  · rw [h] at hmem
    exact absurd hmem (List.not_mem_nil _)
  · rw [hpd] at hp2
    injection hp2 with hpdeq
    subst hpdeq
    have hpm : pm = none := himp hprev
    subst hpm
    rw [h, buildMetrics_none] at hmem
    simp only [List.mem_cons, List.not_mem_nil, or_false] at hmem
    rcases hmem with h1 | h1 | h1 | h1 | h1 <;>
      (rw [Prod.ext_iff] at h1
       obtain ⟨hk, hmc⟩ := h1
       simp only at hk hmc
       subst hk
       subst hmc)
    · exact ⟨rfl, by simp [calc_improvement_self], by simp [calc_improvement_self],
        fun _ => by simp, fun hk => absurd hk (by decide)⟩
    · exact ⟨rfl, by simp [calc_improvement_self], by simp [calc_improvement_self],
        fun _ => by simp, fun hk => absurd hk (by decide)⟩
    · exact ⟨rfl, by simp [calc_improvement_self], by simp [calc_improvement_self],
        fun _ => by simp, fun hk => absurd hk (by decide)⟩
    · exact ⟨rfl, by simp [calc_improvement_self], by simp [calc_improvement_self],
        fun _ => by simp, fun hk => absurd hk (by decide)⟩
    · exact ⟨rfl, by simp [calc_improvement_prev_zero], by simp [calc_improvement_prev_zero],
        fun hk => absurd rfl hk, fun _ => by simp⟩

lemma agg_sessionA :
    _aggregate_daily_metrics oneSessionCollab.setOrder [sessionA] = Except.ok (some dmA) :=
  aggregate_cons_eq oneSessionCollab.setOrder sessionA [] "a" "tenor" sessionA sessionA
    rfl rfl rfl rfl

lemma gdr_one_session_metrics :
    (generate_daily_report oneSessionCollab "user1" "2024-01-02").metrics =
      buildMetrics dmA none := rfl

lemma mcTotalA_mem :
    ("total_sessions", mcTotalA) ∈
      (generate_daily_report oneSessionCollab "user1" "2024-01-02").metrics := by
  rw [gdr_one_session_metrics, buildMetrics_none]
  simp only [List.mem_cons]
  right; right; right; right; left
  rfl

/-- C2 is refuted as stated: on a first day with one session today and
none the previous day, the total_sessions comparison has previous None
and trend "baseline" as the claim says, but its change is 1 (current
minus the fallback 0 of line 362), not 0. -/
theorem total_sessions_change_nonzero_first_day :
    (_get_daily_sessions oneSessionCollab "user1" "2024-01-01" = []) ∧
    ("total_sessions", mcTotalA) ∈
      (generate_daily_report oneSessionCollab "user1" "2024-01-02").metrics ∧
    mcTotalA.previous = none ∧ mcTotalA.trend = "baseline" ∧
    mcTotalA.change = some 1 ∧ some (1 : ℝ) ≠ some (0 : ℝ) := by
  refine ⟨rfl, mcTotalA_mem, rfl, ?_, ?_, by simp⟩
  · show (_calculate_improvement (dmA.session_count : ℝ) 0).2 = "baseline"
    rw [calc_improvement_prev_zero]
  · show some ((dmA.session_count : ℝ) - 0) = some 1
    have h1 : dmA.session_count = 1 := rfl
    rw [h1, sub_zero, Nat.cast_one]

/-- Witness for C2's amended statement at the one-session first day. -/
theorem first_day_comparisons_amended_witness :
    mcTotalA.previous = none ∧ mcTotalA.trend = "baseline" ∧
      mcTotalA.improvement_percentage = some 0 :=
  have h := first_day_comparisons_amended oneSessionCollab "user1" "2024-01-02" "2024-01-01"
    rfl rfl "total_sessions" mcTotalA mcTotalA_mem
  ⟨h.1, h.2.1, h.2.2.1⟩

/-- Witness for C10 at the concrete one-session report. -/
theorem metric_comparison_trend_consistent_witness : TrendConsistent mcTotalA :=
  metric_comparison_trend_consistent oneSessionCollab "user1" "2024-01-02" "total_sessions"
    mcTotalA mcTotalA_mem
